import Mathlib

/-!
Verification of the `albatross-vault` Ralph-Lite orchestrator core:
the Telegram command bridge (`src/utils/telegram.py`), the budget
guardian (`src/utils/token_tracker.py`), the phase orchestrator
(`src/core/ralph_lite.py`) and its generators
(`99-System/ralph-lite/src/core/interview.py`, `planner.py`).

Python strings are embedded as `List Char` (Python's `str` is a
sequence of code points); every Python string operation used by the
code is given a structurally recursive Lean counterpart so that all
definitions evaluate inside the kernel.  Dollar amounts (Python
floats holding small decimal fractions) are embedded as exact
rationals `ℚ`; float rounding is outside the scope of the claims.
-/

/-- Embedded Python string: a list of characters. -/
abbrev PyStr := List Char

/-- Coerce a Lean string literal to an embedded Python string. -/
def lit (s : String) : PyStr := s.data

/-- Character lower-casing as in Python `str.lower` restricted to ASCII
(all strings handled by the repository's command vocabulary are ASCII). -/
def lowerChar (c : Char) : Char :=
  if 'A' ≤ c ∧ c ≤ 'Z' then Char.ofNat (c.toNat + 32) else c

/-- Python `str.lower`. -/
def pyLower (s : PyStr) : PyStr := s.map lowerChar

/-- Python `str.strip()` with no argument: drop leading and trailing
whitespace. -/
def pyStrip (s : PyStr) : PyStr :=
  ((s.dropWhile Char.isWhitespace).reverse.dropWhile Char.isWhitespace).reverse

/-- Python `s.startswith(p)`. -/
def pyStartswith (s p : PyStr) : Bool := p.isPrefixOf s

/-- Helper for `pySplitWs`: accumulate the current word (reversed). -/
def pySplitWsAux : PyStr → PyStr → List PyStr
  | [], acc => if acc = [] then [] else [acc.reverse]
  | c :: cs, acc =>
    if c.isWhitespace then
      if acc = [] then pySplitWsAux cs [] else acc.reverse :: pySplitWsAux cs []
    else pySplitWsAux cs (c :: acc)

/-- Python `str.split()` with no argument: split on whitespace runs,
discarding empty fields. -/
def pySplitWs (s : PyStr) : List PyStr := pySplitWsAux s []

/-- Python `str.isdigit()` for ASCII content: nonempty and all digits. -/
def pyIsdigit (s : PyStr) : Bool := !s.isEmpty && s.all Char.isDigit

/-- Python substring test `sub in s`. -/
def pyContains : PyStr → PyStr → Bool
  | s, sub => decide (sub <:+: s)

/-- Numeric value of an ASCII decimal digit character. -/
def digitVal (c : Char) : Nat := c.toNat - 48

/-- Read an all-digit character list as a natural number (big-endian). -/
def readNat (s : PyStr) : Nat := s.foldl (fun a c => a * 10 + digitVal c) 0

/-- Python `int(s)` on the strings produced by `parse_command`'s ROLLBACK
parameter: the empty string raises `ValueError`, an all-digit string is
read as a number.  (The general `int` also accepts signs and surrounding
whitespace; the orchestrator only ever converts `''` or digit strings.) -/
def pyInt (s : PyStr) : Option Int :=
  let t := pyStrip s
  if pyIsdigit t then some (readNat t) else none

/-- Fixed-width decimal rendering (`w` digits, zero-padded), the layout
used by `datetime.isoformat` for each numeric field. -/
def pad : Nat → Nat → PyStr
  | 0, _ => []
  | w + 1, n => pad w (n / 10) ++ [Char.ofNat (48 + n % 10)]

/-- Python `str(n)` for a natural number. -/
def natStr (n : Nat) : PyStr := Nat.toDigits 10 n

/-- Scan of `parts[1:]` in the ROLLBACK branch of `parse_command`: the
first all-digit part, or the empty string. -/
def firstDigitParam : List PyStr → PyStr
  | [] => []
  | p :: ps => if pyIsdigit p then p else firstDigitParam ps

/-- Result of `telegram.parse_command`: the `{'action', 'parameter', 'raw'}`
dictionary. -/
structure ParsedCommand where
  action : PyStr
  parameter : PyStr
  raw : PyStr
deriving DecidableEq, Repr

/-- `telegram.parse_command` (src/utils/telegram.py, lines 155-213):
classify a raw user reply into an action with optional parameter. -/
def parse_command (response : PyStr) : ParsedCommand :=
  if response = [] then ⟨lit "UNKNOWN", [], []⟩
  else
    let raw := pyStrip response
    let lower := pyLower raw
    if lower ∈ [lit "continue", lit "cont", lit "c", lit "yes", lit "y", lit "go", lit "proceed"] then
      ⟨lit "CONTINUE", [], raw⟩
    else if lower ∈ [lit "stop", lit "halt", lit "cancel", lit "abort", lit "end", lit "quit"] then
      ⟨lit "STOP", [], raw⟩
    else if lower ∈ [lit "approve", lit "approved", lit "ok", lit "good", lit "accept"] then
      ⟨lit "APPROVE", [], raw⟩
    else if lower ∈ [lit "reject", lit "rejected", lit "no", lit "n", lit "bad", lit "decline"] then
      ⟨lit "REJECT", [], raw⟩
    else if pyStartswith lower (lit "fix:") || pyStartswith lower (lit "fix ") then
      ⟨lit "FIX", pyStrip (raw.drop 4), raw⟩
    else if pyStartswith lower (lit "rollback") then
      let parts := pySplitWs lower
      let parameter := firstDigitParam (parts.drop 1)
      ⟨lit "ROLLBACK", parameter, raw⟩
    else if pyStartswith lower (lit "revise:") || pyStartswith lower (lit "revise ") then
      ⟨lit "REVISE", pyStrip (raw.drop 7), raw⟩
    else
      ⟨lit "UNKNOWN", [], raw⟩

/-- Action component of `parse_command` as a function of the lowered,
stripped reply text only (the branch cascade consults nothing else). -/
def actionOfLower (lower : PyStr) : PyStr :=
  if lower ∈ [lit "continue", lit "cont", lit "c", lit "yes", lit "y", lit "go", lit "proceed"] then
    lit "CONTINUE"
  else if lower ∈ [lit "stop", lit "halt", lit "cancel", lit "abort", lit "end", lit "quit"] then
    lit "STOP"
  else if lower ∈ [lit "approve", lit "approved", lit "ok", lit "good", lit "accept"] then
    lit "APPROVE"
  else if lower ∈ [lit "reject", lit "rejected", lit "no", lit "n", lit "bad", lit "decline"] then
    lit "REJECT"
  else if pyStartswith lower (lit "fix:") || pyStartswith lower (lit "fix ") then
    lit "FIX"
  else if pyStartswith lower (lit "rollback") then
    lit "ROLLBACK"
  else if pyStartswith lower (lit "revise:") || pyStartswith lower (lit "revise ") then
    lit "REVISE"
  else
    lit "UNKNOWN"

/-- The action returned by `parse_command` depends only on the lowered,
stripped reply. -/
lemma parse_command_action (s : PyStr) :
    (parse_command s).action =
      if s = [] then lit "UNKNOWN" else actionOfLower (pyLower (pyStrip s)) := by
  unfold parse_command actionOfLower
  by_cases h : s = []
  · simp [h]
  · simp only [if_neg h]
    repeat' split
    all_goals rfl

/-- Recognized action vocabulary of the command bridge. -/
def commandVocabulary : List PyStr :=
  [lit "CONTINUE", lit "STOP", lit "APPROVE", lit "REJECT",
   lit "FIX", lit "ROLLBACK", lit "REVISE", lit "UNKNOWN"]

lemma actionOfLower_mem (l : PyStr) : actionOfLower l ∈ commandVocabulary := by
  unfold actionOfLower
  repeat' split
  all_goals decide

lemma parse_command_total (s : PyStr) :
    (parse_command s).action ∈ commandVocabulary := by
  rw [parse_command_action]
  split
  · simp [commandVocabulary]
  · exact actionOfLower_mem _

/-- C7: `parse_command` is total (every input, the empty string included,
is classified into exactly one action of the fixed vocabulary), matching
is case-insensitive (the action depends only on the lowered stripped
text), `"fix: missing tests"` yields FIX with parameter
`"missing tests"`, `"rollback 2"` yields ROLLBACK with parameter `"2"`,
`"approve"` and `"ok"` both yield APPROVE, the empty string yields
UNKNOWN, and the CONTINUE and STOP synonym lists are honored. -/
theorem parse_command_spec :
    (∀ s : PyStr, (parse_command s).action ∈ commandVocabulary) ∧
    (∀ s t : PyStr, pyLower (pyStrip s) = pyLower (pyStrip t) →
      (parse_command s).action = (parse_command t).action) ∧
    parse_command (lit "fix: missing tests")
      = ⟨lit "FIX", lit "missing tests", lit "fix: missing tests"⟩ ∧
    parse_command (lit "rollback 2")
      = ⟨lit "ROLLBACK", lit "2", lit "rollback 2"⟩ ∧
    (parse_command (lit "approve")).action = lit "APPROVE" ∧
    (parse_command (lit "ok")).action = lit "APPROVE" ∧
    parse_command [] = ⟨lit "UNKNOWN", [], []⟩ ∧
    (∀ s ∈ [lit "yes", lit "y", lit "go", lit "proceed"],
      (parse_command s).action = lit "CONTINUE") ∧
    (∀ s ∈ [lit "halt", lit "cancel", lit "abort", lit "quit"],
      (parse_command s).action = lit "STOP") := by
  refine ⟨parse_command_total, ?_, by decide, by decide, by decide, by decide, by decide,
    by decide, by decide⟩
  intro s t h
  rw [parse_command_action, parse_command_action]
  by_cases hs : s = [] <;> by_cases ht : t = []
  · simp [hs, ht]
  · rw [if_pos hs, if_neg ht]
    rw [hs] at h
    rw [← h]
    decide
  · rw [if_neg hs, if_pos ht]
    rw [ht] at h
    rw [h]
    decide
  · rw [if_neg hs, if_neg ht, h]

/-- Closed instance of `parse_command_spec`: the case-insensitivity
clause applied at `"APPROVE"` versus `"approve"`. -/
theorem parse_command_spec_witness :
    (parse_command (lit "APPROVE")).action = (parse_command (lit "approve")).action :=
  parse_command_spec.2.1 (lit "APPROVE") (lit "approve") (by decide)

/-- One entry of the cost ledger, as written by `TokenGuardian.log_cost`
(src/utils/token_tracker.py). -/
structure CostEntry where
  timestamp : PyStr
  operation : PyStr
  phase : PyStr
  iteration : Nat
  cost : ℚ
  build_id : Option PyStr
deriving DecidableEq, Repr

/-- Python `dict` assignment `d[k] = v` on an insertion-ordered
association list: replace in place when the key exists, append
otherwise. -/
def dictInsert (k : PyStr) (v : CostEntry) (d : List (PyStr × CostEntry)) :
    List (PyStr × CostEntry) :=
  if d.any (fun p => p.1 = k) then
    d.map (fun p => if p.1 = k then (k, v) else p)
  else
    d ++ [(k, v)]

/-- In-memory state of `TokenGuardian`: the daily limit, today's date
string, and the `daily_costs["history"]` dictionary. -/
structure TokenGuardian where
  daily_limit : ℚ
  today : PyStr
  history : List (PyStr × CostEntry)
deriving DecidableEq, Repr

/-- Contents of the persisted `token_costs.json` ledger file. -/
structure CostLedgerFile where
  current_date : PyStr
  history : List (PyStr × CostEntry)
deriving DecidableEq, Repr

/-- `TokenGuardian._load_costs` (token_tracker.py lines 37-49): missing
file or a stored date different from today yields a fresh empty ledger,
otherwise the stored ledger is kept. -/
def load_costs (stored : Option CostLedgerFile) (today : PyStr) : CostLedgerFile :=
  match stored with
  | none => ⟨today, []⟩
  | some data => if data.current_date ≠ today then ⟨today, []⟩ else data

/-- Construct a `TokenGuardian` from a daily limit and the loaded ledger
(`TokenGuardian.__init__`). -/
def TokenGuardian.ofFile (daily_limit : ℚ) (stored : Option CostLedgerFile)
    (today : PyStr) : TokenGuardian :=
  ⟨daily_limit, today, (load_costs stored today).history⟩

/-- `TokenGuardian.get_daily_spend` (token_tracker.py lines 56-61): sum
of the `cost` field over all history entries. -/
def TokenGuardian.get_daily_spend (g : TokenGuardian) : ℚ :=
  (g.history.map (fun p => p.2.cost)).sum

/-- `TokenGuardian.check_budget` (token_tracker.py lines 63-74): strict
comparison `current + estimated_cost < daily_limit`. -/
def TokenGuardian.check_budget (g : TokenGuardian) (estimated_cost : ℚ) : Bool :=
  decide (g.get_daily_spend + estimated_cost < g.daily_limit)

/-- `TokenGuardian.log_cost` (token_tracker.py lines 76-101): store an
entry under the key `f"{timestamp}_{operation}"`.  The wall-clock
timestamp captured by `datetime.now().isoformat()` is passed explicitly. -/
def TokenGuardian.log_cost (g : TokenGuardian) (operation phase : PyStr)
    (iteration : Nat) (cost : ℚ) (build_id : Option PyStr)
    (timestamp : PyStr) : TokenGuardian :=
  let op_id := timestamp ++ lit "_" ++ operation
  let entry : CostEntry := ⟨timestamp, operation, phase, iteration, cost, build_id⟩
  { g with history := dictInsert op_id entry g.history }

/-- `TokenGuardian.enforce_limit` (token_tracker.py lines 122-132):
true exactly when the hard stop fires. -/
def TokenGuardian.limitReached (g : TokenGuardian) : Bool :=
  decide (g.daily_limit ≤ g.get_daily_spend)

/-- Arguments of one `log_cost` call, used to state ledger properties
about call sequences. -/
structure LogCall where
  timestamp : PyStr
  operation : PyStr
  phase : PyStr
  iteration : Nat
  cost : ℚ
  build_id : Option PyStr
deriving DecidableEq, Repr

/-- Ledger key produced for a `log_cost` call. -/
def LogCall.opId (c : LogCall) : PyStr := c.timestamp ++ lit "_" ++ c.operation

/-- Replay a sequence of `log_cost` calls against a guardian. -/
def logAll (g : TokenGuardian) (calls : List LogCall) : TokenGuardian :=
  calls.foldl (fun g c => g.log_cost c.operation c.phase c.iteration c.cost c.build_id c.timestamp) g

lemma dictInsert_fresh (k : PyStr) (v : CostEntry) (d : List (PyStr × CostEntry))
    (h : k ∉ d.map Prod.fst) : dictInsert k v d = d ++ [(k, v)] := by
  unfold dictInsert
  have hfalse : ¬ d.any (fun p => p.1 = k) = true := by
    simp only [List.any_eq_true, decide_eq_true_eq]
    rintro ⟨p, hp, hk⟩
    exact h (List.mem_map.mpr ⟨p, hp, hk⟩)
  rw [if_neg hfalse]

lemma get_daily_spend_log_fresh (g : TokenGuardian) (c : LogCall)
    (h : c.opId ∉ g.history.map Prod.fst) :
    (g.log_cost c.operation c.phase c.iteration c.cost c.build_id c.timestamp).get_daily_spend
      = g.get_daily_spend + c.cost := by
  unfold TokenGuardian.log_cost TokenGuardian.get_daily_spend
  dsimp only
  have h' : (c.timestamp ++ lit "_" ++ c.operation) ∉ g.history.map Prod.fst := h
  rw [dictInsert_fresh _ _ _ h']
  rw [List.map_append, List.sum_append]
  simp only [List.map_cons, List.map_nil, List.sum_cons, List.sum_nil, add_zero]

lemma history_keys_log (g : TokenGuardian) (c : LogCall)
    (h : c.opId ∉ g.history.map Prod.fst) :
    (g.log_cost c.operation c.phase c.iteration c.cost c.build_id c.timestamp).history.map Prod.fst
      = g.history.map Prod.fst ++ [c.opId] := by
  unfold TokenGuardian.log_cost
  dsimp only
  have h' : (c.timestamp ++ lit "_" ++ c.operation) ∉ g.history.map Prod.fst := h
  rw [dictInsert_fresh _ _ _ h']
  rw [List.map_append]
  simp only [List.map_cons, List.map_nil, LogCall.opId]

lemma logAll_spend (calls : List LogCall) (g : TokenGuardian)
    (hfresh : ∀ c ∈ calls, c.opId ∉ g.history.map Prod.fst)
    (hdist : calls.Pairwise (fun a b => a.opId ≠ b.opId)) :
    (logAll g calls).get_daily_spend = g.get_daily_spend + (calls.map LogCall.cost).sum := by
  induction calls generalizing g with
  | nil => simp [logAll]
  | cons c rest ih =>
    have hc := hfresh c (by simp)
    have step :
        logAll g (c :: rest)
          = logAll (g.log_cost c.operation c.phase c.iteration c.cost c.build_id c.timestamp) rest := by
      simp [logAll]
    rw [step, ih _ ?_ (List.Pairwise.of_cons hdist)]
    · rw [get_daily_spend_log_fresh g c hc]
      simp only [List.map_cons, List.sum_cons]
      ring
    · intro d hd
      rw [history_keys_log g c hc]
      simp only [List.mem_append, List.mem_singleton, not_or]
      refine ⟨hfresh d (by simp [hd]), ?_⟩
      have := (List.pairwise_cons.mp hdist).1 d hd
      exact fun hEq => this hEq.symm

/-- C5: starting from an empty ledger, `get_daily_spend` after a
sequence of `log_cost` calls with pairwise-distinct operation keys (the
keys embed a wall-clock timestamp) equals the sum of the logged
amounts — entries are only appended within a day — and a stored ledger
whose date differs from today is discarded on load, making the daily
spend 0. -/
theorem daily_spend_spec (limit : ℚ) (today : PyStr) (calls : List LogCall)
    (hdist : calls.Pairwise (fun a b => a.opId ≠ b.opId)) :
    (logAll (TokenGuardian.ofFile limit none today) calls).get_daily_spend
        = (calls.map LogCall.cost).sum ∧
    ∀ stored : CostLedgerFile, stored.current_date ≠ today →
      (TokenGuardian.ofFile limit (some stored) today).get_daily_spend = 0 := by
  constructor
  · rw [logAll_spend calls _ (by simp [TokenGuardian.ofFile, load_costs]) hdist]
    simp [TokenGuardian.ofFile, TokenGuardian.get_daily_spend, load_costs]
  · intro stored hne
    simp [TokenGuardian.ofFile, TokenGuardian.get_daily_spend, load_costs, hne]

/-- Closed instance of `daily_spend_spec`: two same-day `log_cost` calls
of 0.10 and 0.50 dollars yield a daily spend of 0.60, and a stale ledger
loads as 0. -/
theorem daily_spend_spec_witness :
    (logAll (TokenGuardian.ofFile 5 none (lit "2026-10-12"))
        [⟨lit "t1", lit "op1", lit "interview", 1, mkRat 1 10, none⟩,
         ⟨lit "t2", lit "op2", lit "build", 1, mkRat 5 10, none⟩]).get_daily_spend
      = mkRat 6 10 ∧
    (TokenGuardian.ofFile 5
        (some ⟨lit "2026-10-11", [(lit "k", ⟨lit "t", lit "op", lit "p", 0, 3, none⟩)]⟩)
        (lit "2026-10-12")).get_daily_spend = 0 := by
  have h := daily_spend_spec 5 (lit "2026-10-12")
    [⟨lit "t1", lit "op1", lit "interview", 1, mkRat 1 10, none⟩,
     ⟨lit "t2", lit "op2", lit "build", 1, mkRat 5 10, none⟩]
    (by simp [LogCall.opId]; decide)
  refine ⟨?_, h.2 ⟨lit "2026-10-11", [(lit "k", ⟨lit "t", lit "op", lit "p", 0, 3, none⟩)]⟩ (by decide)⟩
  rw [h.1]
  norm_num [Rat.mkRat_eq_div]

/-- C6: `check_budget` returns true iff `get_daily_spend() + estimate`
is strictly below the daily limit; an operation whose estimate would
exactly reach the limit is rejected. -/
theorem check_budget_spec :
    (∀ (g : TokenGuardian) (x : ℚ),
      g.check_budget x = true ↔ g.get_daily_spend + x < g.daily_limit) ∧
    (∀ (g : TokenGuardian) (x : ℚ),
      g.get_daily_spend + x = g.daily_limit → g.check_budget x = false) := by
  constructor
  · intro g x
    simp [TokenGuardian.check_budget]
  · intro g x h
    simp [TokenGuardian.check_budget, h]

/-- Closed instance of `check_budget_spec`: with a ledger holding 0.60
of spend and a limit of 1.00, an estimate of 0.40 (exactly reaching the
limit) is rejected. -/
theorem check_budget_spec_witness :
    (TokenGuardian.mk 1 (lit "2026-10-12")
        [(lit "k", ⟨lit "t", lit "op", lit "build", 1, mkRat 6 10, none⟩)]).check_budget (mkRat 4 10)
      = false := by
  apply check_budget_spec.2
  show (List.map (fun p => p.2.cost)
      [((lit "k"),
        CostEntry.mk (lit "t") (lit "op") (lit "build") 1 (mkRat 6 10) none)]).sum
    + mkRat 4 10 = 1
  norm_num [Rat.mkRat_eq_div]

/-- Embedded `datetime.datetime` value (naive, as used by the
orchestrator via `datetime.now()`). -/
structure PyDateTime where
  year : Nat
  month : Nat
  day : Nat
  hour : Nat
  minute : Nat
  second : Nat
  microsecond : Nat
deriving DecidableEq, Repr

/-- Python `datetime.isoformat()`: `YYYY-MM-DDTHH:MM:SS` with a
`.ffffff` microsecond suffix exactly when the microsecond field is
nonzero. -/
def isoformat (d : PyDateTime) : PyStr :=
  pad 4 d.year ++ '-' ::
    (pad 2 d.month ++ '-' ::
      (pad 2 d.day ++ 'T' ::
        (pad 2 d.hour ++ ':' ::
          (pad 2 d.minute ++ ':' ::
            (pad 2 d.second ++
              (if d.microsecond = 0 then [] else '.' :: pad 6 d.microsecond))))))

/-- Read exactly `w` decimal digits from the front of a string. -/
def readFixed (w : Nat) (cs : PyStr) : Option (Nat × PyStr) :=
  let ds := cs.take w
  if ds.length = w ∧ ds.all Char.isDigit then some (readNat ds, cs.drop w) else none

/-- Consume one expected character. -/
def expectChar (c : Char) : PyStr → Option PyStr
  | [] => none
  | x :: xs => if x = c then some xs else none

/-- Python `datetime.fromisoformat` on the strings emitted by
`isoformat`: the fixed-width layout is decoded field by field. -/
def fromisoformat (s : PyStr) : Option PyDateTime :=
  match readFixed 4 s with
  | none => none
  | some (y, s) =>
  match expectChar '-' s with
  | none => none
  | some s =>
  match readFixed 2 s with
  | none => none
  | some (mo, s) =>
  match expectChar '-' s with
  | none => none
  | some s =>
  match readFixed 2 s with
  | none => none
  | some (dd, s) =>
  match expectChar 'T' s with
  | none => none
  | some s =>
  match readFixed 2 s with
  | none => none
  | some (h, s) =>
  match expectChar ':' s with
  | none => none
  | some s =>
  match readFixed 2 s with
  | none => none
  | some (mi, s) =>
  match expectChar ':' s with
  | none => none
  | some s =>
  match readFixed 2 s with
  | none => none
  | some (sec, s) =>
  match s with
  | [] => some ⟨y, mo, dd, h, mi, sec, 0⟩
  | _ =>
  match expectChar '.' s with
  | none => none
  | some s =>
  match readFixed 6 s with
  | none => none
  | some (us, s) => if s = [] then some ⟨y, mo, dd, h, mi, sec, us⟩ else none

lemma pad_length (w n : Nat) : (pad w n).length = w := by
  induction w generalizing n with
  | zero => rfl
  | succ w ih => simp [pad, ih]

lemma pad_digit_char (r : Nat) (h : r < 10) :
    (Char.ofNat (48 + r)).isDigit = true ∧ digitVal (Char.ofNat (48 + r)) = r := by
  interval_cases r <;> exact ⟨by decide, by decide⟩

lemma pad_all_digit (w n : Nat) : (pad w n).all Char.isDigit = true := by
  induction w generalizing n with
  | zero => rfl
  | succ w ih =>
    simp only [pad, List.all_append, ih, List.all_cons, List.all_nil, Bool.and_true,
      Bool.true_and]
    exact (pad_digit_char (n % 10) (Nat.mod_lt _ (by norm_num))).1

lemma readNat_append_digit (xs : PyStr) (c : Char) :
    readNat (xs ++ [c]) = readNat xs * 10 + digitVal c := by
  unfold readNat
  rw [List.foldl_append]
  rfl

lemma readNat_pad (w n : Nat) (h : n < 10 ^ w) : readNat (pad w n) = n := by
  induction w generalizing n with
  | zero =>
    interval_cases n
    rfl
  | succ w ih =>
    have hd : n / 10 < 10 ^ w := by
      rw [Nat.div_lt_iff_lt_mul (by norm_num)]
      calc n < 10 ^ (w + 1) := h
        _ = 10 ^ w * 10 := by ring
    rw [pad, readNat_append_digit, ih _ hd,
      (pad_digit_char (n % 10) (Nat.mod_lt _ (by norm_num))).2]
    omega

lemma readFixed_pad (w n : Nat) (rest : PyStr) (h : n < 10 ^ w) :
    readFixed w (pad w n ++ rest) = some (n, rest) := by
  unfold readFixed
  rw [List.take_left' (pad_length w n), List.drop_left' (pad_length w n)]
  rw [if_pos ⟨pad_length w n, pad_all_digit w n⟩]
  rw [readNat_pad w n h]

/-- Well-formedness needed for the textual timestamp round trip: every
field fits its fixed-width decimal rendering.  (Real `datetime` values
satisfy stronger bounds: months 1-12, seconds 0-59, etc.) -/
def PyDateTime.wf (d : PyDateTime) : Prop :=
  d.year < 10 ^ 4 ∧ d.month < 10 ^ 2 ∧ d.day < 10 ^ 2 ∧ d.hour < 10 ^ 2 ∧
    d.minute < 10 ^ 2 ∧ d.second < 10 ^ 2 ∧ d.microsecond < 10 ^ 6

lemma optBind_some {α β : Type} (a : α) (f : α → Option β) :
    (Option.bind (some a) f) = f a := rfl

lemma expectChar_cons (c : Char) (xs : PyStr) : expectChar c (c :: xs) = some xs := by
  simp [expectChar]

lemma readFixed_pad_nil (w n : Nat) (h : n < 10 ^ w) :
    readFixed w (pad w n) = some (n, []) := by
  rw [← List.append_nil (pad w n)]
  exact readFixed_pad w n [] h

lemma fromisoformat_isoformat (d : PyDateTime) (h : d.wf) :
    fromisoformat (isoformat d) = some d := by
  obtain ⟨y, mo, dd, hh, mi, se, us⟩ := d
  obtain ⟨hy, hmo, hdd, hh2, hmi, hs, hus⟩ := h
  unfold isoformat fromisoformat
  dsimp only at *
  rw [readFixed_pad _ _ _ hy]
  dsimp only
  rw [expectChar_cons]
  dsimp only
  rw [readFixed_pad _ _ _ hmo]
  dsimp only
  rw [expectChar_cons]
  dsimp only
  rw [readFixed_pad _ _ _ hdd]
  dsimp only
  rw [expectChar_cons]
  dsimp only
  rw [readFixed_pad _ _ _ hh2]
  dsimp only
  rw [expectChar_cons]
  dsimp only
  rw [readFixed_pad _ _ _ hmi]
  dsimp only
  rw [expectChar_cons]
  dsimp only
  by_cases hz : us = 0
  · rw [if_pos hz, List.append_nil, readFixed_pad_nil _ _ hs]
    dsimp only
    rw [hz]
  · rw [if_neg hz, readFixed_pad _ _ _ hs]
    have hpadc : ∃ a as, pad 6 us = a :: as := by
      cases hp : pad 6 us with
      | nil =>
        have := pad_length 6 us
        rw [hp] at this
        simp at this
      | cons a as => exact ⟨a, as, rfl⟩
    obtain ⟨a, as, hp⟩ := hpadc
    rw [hp]
    dsimp only
    rw [expectChar_cons]
    dsimp only
    rw [← hp, readFixed_pad_nil _ _ hus]
    rfl

/-- `BuildPhase` enum (ralph_lite.py lines 42-50). -/
inductive BuildPhase
  | IDLE
  | INTERVIEW
  | PLANNING
  | BUILD
  | DONE
  | PAUSED
  | FAILED
deriving DecidableEq, Repr

/-- Python `BuildPhase.name`. -/
def BuildPhase.name : BuildPhase → PyStr
  | .IDLE => lit "IDLE"
  | .INTERVIEW => lit "INTERVIEW"
  | .PLANNING => lit "PLANNING"
  | .BUILD => lit "BUILD"
  | .DONE => lit "DONE"
  | .PAUSED => lit "PAUSED"
  | .FAILED => lit "FAILED"

/-- Python `BuildPhase[name]` lookup; a `KeyError` on an unknown name
becomes `none`. -/
def phaseOfName (s : PyStr) : Option BuildPhase :=
  if s = lit "IDLE" then some .IDLE
  else if s = lit "INTERVIEW" then some .INTERVIEW
  else if s = lit "PLANNING" then some .PLANNING
  else if s = lit "BUILD" then some .BUILD
  else if s = lit "DONE" then some .DONE
  else if s = lit "PAUSED" then some .PAUSED
  else if s = lit "FAILED" then some .FAILED
  else none

/-- Record of one build step.  The defining dataclass lives in
`src/core/builder.py`, which is absent from the repository snapshot;
the fields are taken from `BuildState._iteration_to_dict` /
`BuildState.from_dict` in ralph_lite.py, which read and write exactly
these eight attributes. -/
structure IterationResult where
  success : Bool
  iteration_num : Nat
  files_created : List PyStr
  files_modified : List PyStr
  tests_passed : Bool
  cost : ℚ
  path : PyStr
  summary : PyStr
deriving DecidableEq, Repr

/-- One question/answer record appended by
`RalphLiteOrchestrator._ask_question` (ralph_lite.py lines 284-300). -/
structure QAPair where
  question : PyStr
  answer : PyStr
  timestamp : PyStr
deriving DecidableEq, Repr

/-- JSON form of an `IterationResult`
(`BuildState._iteration_to_dict`, ralph_lite.py lines 100-112). -/
structure IterationDict where
  success : Bool
  iteration_num : Nat
  files_created : List PyStr
  files_modified : List PyStr
  tests_passed : Bool
  cost : ℚ
  path : PyStr
  summary : PyStr
deriving DecidableEq, Repr

/-- `BuildState._iteration_to_dict`. -/
def iteration_to_dict (r : IterationResult) : IterationDict :=
  ⟨r.success, r.iteration_num, r.files_created, r.files_modified,
   r.tests_passed, r.cost, r.path, r.summary⟩

/-- Reconstruction of an `IterationResult` inside `BuildState.from_dict`
(ralph_lite.py lines 126-137). -/
def iteration_of_dict (d : IterationDict) : IterationResult :=
  ⟨d.success, d.iteration_num, d.files_created, d.files_modified,
   d.tests_passed, d.cost, d.path, d.summary⟩

/-- The `BuildState` dataclass (ralph_lite.py lines 53-79). -/
structure BuildState where
  phase : BuildPhase
  project_name : PyStr
  source_idea : PyStr
  started_at : PyDateTime
  updated_at : PyDateTime
  qa_pairs : List QAPair
  approved_plan : PyStr
  plan_revisions : Nat
  current_iteration : Nat
  iterations : List IterationResult
  last_iteration_path : PyStr
  total_cost : ℚ
  paused_at : Option PyDateTime := none
  pause_reason : Option PyStr := none
deriving DecidableEq, Repr

/-- JSON snapshot of a `BuildState` as written to `BUILD_STATE.json`. -/
structure StateDict where
  phase : PyStr
  project_name : PyStr
  source_idea : PyStr
  started_at : PyStr
  updated_at : PyStr
  qa_pairs : List QAPair
  approved_plan : PyStr
  plan_revisions : Nat
  current_iteration : Nat
  iterations : List IterationDict
  last_iteration_path : PyStr
  total_cost : ℚ
  paused_at : Option PyStr
  pause_reason : Option PyStr
deriving DecidableEq, Repr

/-- `BuildState.to_dict` (ralph_lite.py lines 81-98). -/
def BuildState.to_dict (s : BuildState) : StateDict :=
  ⟨s.phase.name, s.project_name, s.source_idea,
   isoformat s.started_at, isoformat s.updated_at,
   s.qa_pairs, s.approved_plan, s.plan_revisions, s.current_iteration,
   s.iterations.map iteration_to_dict, s.last_iteration_path, s.total_cost,
   s.paused_at.map isoformat, s.pause_reason⟩

/-- `BuildState.from_dict` (ralph_lite.py lines 114-154).  A `KeyError`
from the phase lookup or a `ValueError` from timestamp parsing becomes
`none`; a missing or empty `paused_at` yields no pause timestamp. -/
def BuildState.from_dict (d : StateDict) : Option BuildState :=
  match phaseOfName d.phase with
  | none => none
  | some phase =>
  match fromisoformat d.started_at with
  | none => none
  | some started_at =>
  match fromisoformat d.updated_at with
  | none => none
  | some updated_at =>
  match (match d.paused_at with
         | none => some none
         | some s => if s = [] then some none else (fromisoformat s).map some) with
  | none => none
  | some paused_at =>
    some ⟨phase, d.project_name, d.source_idea, started_at, updated_at,
      d.qa_pairs, d.approved_plan, d.plan_revisions, d.current_iteration,
      d.iterations.map iteration_of_dict, d.last_iteration_path, d.total_cost,
      paused_at, d.pause_reason⟩

lemma phaseOfName_name (p : BuildPhase) : phaseOfName p.name = some p := by
  cases p <;> decide

lemma iterations_round (l : List IterationResult) :
    (l.map iteration_to_dict).map iteration_of_dict = l := by
  induction l with
  | nil => rfl
  | cons x xs ih => simp [ih, iteration_to_dict, iteration_of_dict]

lemma isoformat_ne_nil (d : PyDateTime) : isoformat d ≠ [] := by
  unfold isoformat
  intro hc
  rw [List.append_eq_nil] at hc
  exact absurd hc.2 (by simp)

/-- C9: a `BuildState` whose timestamps fit the ISO rendering (true of
every real `datetime`) deserializes from its own serialization without
loss: phase, timestamps, counters, and the nested question/answer and
iteration lists are preserved exactly. -/
theorem build_state_round_trip (s : BuildState)
    (h1 : s.started_at.wf) (h2 : s.updated_at.wf)
    (h3 : ∀ t ∈ s.paused_at, t.wf) :
    BuildState.from_dict (BuildState.to_dict s) = some s := by
  unfold BuildState.to_dict BuildState.from_dict
  dsimp only
  rw [phaseOfName_name, fromisoformat_isoformat _ h1, fromisoformat_isoformat _ h2]
  dsimp only
  cases hp : s.paused_at with
  | none =>
    dsimp only [Option.map]
    rw [iterations_round, ← hp]
  | some t =>
    dsimp only [Option.map]
    rw [if_neg (isoformat_ne_nil t),
      fromisoformat_isoformat t (h3 t (by rw [hp]; simp))]
    dsimp only [Option.map]
    rw [iterations_round, ← hp]

/-- Closed instance of `build_state_round_trip` at a concrete state in
the PLANNING phase with one Q/A pair, one iteration outcome and a pause
record. -/
theorem build_state_round_trip_witness :
    BuildState.from_dict (BuildState.to_dict
      (BuildState.mk BuildPhase.PLANNING (lit "demo") (lit "Build a scraper")
        ⟨2026, 10, 12, 9, 30, 0, 0⟩ ⟨2026, 10, 12, 9, 45, 1, 500⟩
        [⟨lit "What fields?", lit "name, price", lit "2026-10-12T09:31:00"⟩]
        (lit "plan") 1 2
        [⟨true, 0, [lit "README.md"], [], true, mkRat 1 10, lit "iter-0", lit "scaffold"⟩]
        (lit "iter-0") (mkRat 3 10) (some ⟨2026, 10, 12, 9, 50, 0, 0⟩) (some (lit "Budget limit"))))
      = some (BuildState.mk BuildPhase.PLANNING (lit "demo") (lit "Build a scraper")
        ⟨2026, 10, 12, 9, 30, 0, 0⟩ ⟨2026, 10, 12, 9, 45, 1, 500⟩
        [⟨lit "What fields?", lit "name, price", lit "2026-10-12T09:31:00"⟩]
        (lit "plan") 1 2
        [⟨true, 0, [lit "README.md"], [], true, mkRat 1 10, lit "iter-0", lit "scaffold"⟩]
        (lit "iter-0") (mkRat 3 10) (some ⟨2026, 10, 12, 9, 50, 0, 0⟩) (some (lit "Budget limit"))) :=
  build_state_round_trip _ (by norm_num [PyDateTime.wf]) (by norm_num [PyDateTime.wf])
    (by rintro t ht
        simp only [Option.mem_def, Option.some.injEq] at ht
        subst ht
        norm_num [PyDateTime.wf])

/-- Python `s.split(",")`: split on each comma, keeping empty fields. -/
def pySplitComma : PyStr → PyStr → List PyStr
  | [], acc => [acc.reverse]
  | c :: cs, acc =>
    if c = ',' then acc.reverse :: pySplitComma cs [] else pySplitComma cs (c :: acc)

/-- Python `s.replace("_", " ")` for single characters. -/
def pyUnderscoreToSpace (s : PyStr) : PyStr :=
  s.map (fun c => if c = '_' then ' ' else c)

/-- Result of `InterviewGenerator.analyze_idea`
(99-System/ralph-lite/src/core/interview.py lines 60-104). -/
structure IdeaAnalysis where
  domain : PyStr
  complexity : PyStr
  keywords : List PyStr
  inferred_intent : PyStr
deriving DecidableEq, Repr

/-- `InterviewGenerator.analyze_idea`: keyword-based domain detection,
word-count complexity, keyword extraction. -/
def analyze_idea (source_idea : PyStr) : IdeaAnalysis :=
  let idea_lower := pyLower source_idea
  let domain :=
    if [lit "scrape", lit "crawl", lit "extract", lit "spider"].any
        (fun k => pyContains idea_lower k) then lit "web_scraping"
    else if [lit "automate", lit "bot", lit "cron", lit "schedule"].any
        (fun k => pyContains idea_lower k) then lit "automation"
    else if [lit "analyze", lit "dashboard", lit "visualize", lit "metrics"].any
        (fun k => pyContains idea_lower k) then lit "data_analysis"
    else if [lit "api", lit "integrate", lit "webhook", lit "connect"].any
        (fun k => pyContains idea_lower k) then lit "api_integration"
    else lit "general"
  let word_count := (pySplitWs idea_lower).length
  let complexity :=
    if word_count < 20 then lit "simple"
    else if word_count < 50 then lit "medium"
    else lit "complex"
  let keywords := [lit "scrape", lit "automate", lit "api", lit "dashboard", lit "bot"].filter
    (fun w => pyContains idea_lower w)
  ⟨domain, complexity, keywords,
   lit "Build a " ++ pyUnderscoreToSpace domain ++ lit " tool"⟩

/-- The `InterviewGenerator.QUESTIONS` table, keyed by domain
(`QUESTIONS.get(domain, QUESTIONS["general"])`). -/
def questionsFor (domain : PyStr) : List PyStr :=
  if domain = lit "web_scraping" then
    [lit "What specific data fields do you need extracted?",
     lit "Which websites or data sources should we target?",
     lit "How often should this scraper run? (once, daily, real-time)",
     lit "What format for output? (CSV, JSON, database, etc.)",
     lit "Any login/authentication required for the target sites?"]
  else if domain = lit "automation" then
    [lit "What triggers this automation? (schedule, event, manual)",
     lit "What are the input sources or data inputs?",
     lit "What actions should happen on success?",
     lit "What should happen on failure? (retry, alert, stop)",
     lit "Who or what receives the output or notification?"]
  else if domain = lit "data_analysis" then
    [lit "What are the data sources?",
     lit "What metrics or calculations are needed?",
     lit "Any visualization requirements? (charts, dashboards)",
     lit "How often should analysis update?",
     lit "What export formats are needed? (PDF, Excel, etc.)"]
  else if domain = lit "api_integration" then
    [lit "Which external APIs or services to integrate?",
     lit "What authentication method? (API key, OAuth, etc.)",
     lit "What data to send/receive?",
     lit "Rate limits or quotas to respect?",
     lit "Error handling requirements?"]
  else
    [lit "What problem does this solve?",
     lit "Who is the primary user?",
     lit "What are the 3 most important features?",
     lit "Any hard constraints? (time, budget, tech stack)",
     lit "How will you know this is successful?"]

/-- `InterviewGenerator.generate_questions` (interview.py lines 106-123). -/
def generate_questions (source_idea : PyStr) : List PyStr :=
  (questionsFor (analyze_idea source_idea).domain).take 5

/-- The `requirements` sub-dictionary built by `summarize_requirements`;
`none` marks a key that is absent from the Python dict (so that
`dict.get` defaults elsewhere stay observable). -/
structure ReqFields where
  data_fields : Option (List PyStr) := none
  sources : Option (List PyStr) := none
  output_format : Option PyStr := none
  frequency : Option PyStr := none
  constraints : Option (List PyStr) := none
  trigger : Option PyStr := none
  actions : Option PyStr := none
deriving DecidableEq, Repr

/-- Top-level requirements dictionary handed from the interview phase to
the planner. -/
structure Requirements where
  original_idea : PyStr
  domain : PyStr
  requirements : ReqFields
  open_questions : List PyStr
  complexity : Option PyStr := none
  inferred_intent : Option PyStr := none
  project_name : Option PyStr := none
deriving DecidableEq, Repr

/-- One step of the keyword-matching loop in `summarize_requirements`
(interview.py lines 164-177). -/
def summarizeStep (r : ReqFields) (pair : QAPair) : ReqFields :=
  let q := pyLower pair.question
  let a := pair.answer
  if pyContains q (lit "data fields") || pyContains q (lit "fields") then
    { r with data_fields := some ((pySplitComma a []).map pyStrip) }
  else if pyContains q (lit "websites") || pyContains q (lit "sources") then
    { r with sources := some ((pySplitComma a []).map pyStrip) }
  else if pyContains q (lit "format") then
    { r with output_format := some a }
  else if pyContains q (lit "often") || pyContains q (lit "frequency") then
    { r with frequency := some a }
  else if pyContains q (lit "constraint") then
    { r with constraints := some ((r.constraints.getD []) ++ [a]) }
  else r

/-- `InterviewGenerator.summarize_requirements` (interview.py lines
134-184): extract structured requirements from Q/A pairs.  The loop
starts from the five initialized keys; `original_idea` is always the
empty string because the Q/A dicts carry no `context` key, the domain is
hard-coded `"general"` and the open-question list is empty. -/
def summarize_requirements (qa_pairs : List QAPair) : Requirements :=
  let init : ReqFields :=
    { data_fields := some [], sources := some [], output_format := some [],
      frequency := some [], constraints := some [] }
  ⟨[], lit "general", qa_pairs.foldl summarizeStep init, [], none, none, none⟩

/-- Python `", ".join(xs)` and friends. -/
def joinWith (sep : PyStr) (xs : List PyStr) : PyStr := List.intercalate sep xs

/-- Python `f"{x:.2f}"` for the non-negative two-decimal amounts the
planner produces (iteration counts times $0.50). -/
def format2f (q : ℚ) : PyStr :=
  let n := (q * 100).floor.toNat
  natStr (n / 100) ++ '.' :: pad 2 (n % 100)

/-- `PlanGenerator._estimate_iterations` (planner.py lines 135-137). -/
def estimate_iterations (complexity : PyStr) : Nat :=
  if complexity = lit "simple" then 5
  else if complexity = lit "medium" then 7
  else if complexity = lit "complex" then 10
  else 7

/-- `PlanGenerator._assess_risk` (planner.py lines 139-145). -/
def assess_risk (r : Requirements) : PyStr :=
  if r.open_questions.length > 2 then lit "medium" else lit "low"

/-- `PlanGenerator._estimate_cost` (planner.py lines 147-150). -/
def estimate_cost (iterations : Nat) : ℚ := iterations * mkRat 1 2

/-- Values substituted into a plan template
(the `context` dictionary of `create_plan`, planner.py lines 171-187). -/
structure PlanContext where
  project_name : PyStr
  data_fields : PyStr
  sources : PyStr
  output_format : PyStr
  frequency : PyStr
  constraints : PyStr
  description : PyStr
  trigger : PyStr
  actions : PyStr
  estimated_iterations : Nat
  complexity : PyStr
  risk_level : PyStr
  estimated_cost : ℚ
deriving DecidableEq, Repr

/-- `PlanGenerator.TEMPLATES["web_scraping"]` with the context
substituted (Python `str.format`). -/
def webScrapingTemplate (c : PlanContext) : PyStr :=
  lit "# Implementation Plan: " ++ c.project_name ++
  lit "\n\n## Overview\nBuild a web scraper that extracts " ++ c.data_fields ++
  lit " from " ++ c.sources ++
  lit ".\n\n## Architecture\n- **Language**: Python 3.12\n- **Libraries**: requests, BeautifulSoup4, pandas\n- **Pattern**: Modular scraper with retry logic\n\n## Files to Create\n1. `src/scraper.py` - Main scraping logic with error handling\n2. `src/parser.py` - HTML parsing and data extraction\n3. `src/exporter.py` - Output formatting (" ++
  c.output_format ++
  lit ")\n4. `src/config.py` - Settings and configuration\n5. `tests/test_scraper.py` - Unit tests\n6. `README.md` - Usage instructions\n\n## Implementation Order (Iterations)\n1. **Scaffold** - Project structure, config\n2. **HTTP Client** - Requests with retries, headers\n3. **HTML Parsing** - Extract " ++
  c.data_fields ++
  lit "\n4. **Data Export** - Save to " ++ c.output_format ++
  lit "\n5. **Error Handling** - Robust failure recovery\n6. **Testing** - Unit tests, validation\n\n## Estimated Metrics\n- **Iterations**: " ++
  natStr c.estimated_iterations ++
  lit "\n- **Complexity**: " ++ c.complexity ++
  lit "\n- **Risk Level**: " ++ c.risk_level ++
  lit "\n- **Estimated Cost**: $" ++ format2f c.estimated_cost ++
  lit "\n\n## Constraints\n" ++ c.constraints ++
  lit "\n\n## Success Criteria\n- [ ] Successfully scrapes all " ++ c.sources ++
  lit "\n- [ ] Outputs valid " ++ c.output_format ++
  lit "\n- [ ] Handles errors gracefully\n- [ ] Tests pass\n"

/-- `PlanGenerator.TEMPLATES["automation"]` with the context
substituted. -/
def automationTemplate (c : PlanContext) : PyStr :=
  lit "# Implementation Plan: " ++ c.project_name ++
  lit "\n\n## Overview\nBuild an automation that " ++ c.description ++
  lit ".\n\n## Architecture\n- **Trigger**: " ++ c.trigger ++
  lit "\n- **Actions**: " ++ c.actions ++
  lit "\n- **Schedule**: " ++ c.frequency ++
  lit "\n\n## Files to Create\n1. `src/main.py` - Entry point and orchestration\n2. `src/trigger.py` - Event detection/scheduler\n3. `src/actions.py` - Action handlers\n4. `src/notifier.py` - Notifications/alerts\n5. `tests/test_automation.py` - Integration tests\n6. `README.md` - Setup and usage\n\n## Implementation Order (Iterations)\n1. **Scaffold** - Structure, logging\n2. **Trigger** - Event detection\n3. **Actions** - Core automation logic\n4. **Notifier** - Alerts and status\n5. **Error Handling** - Failures and retries\n6. **Testing** - Validation\n\n## Estimated Metrics\n- **Iterations**: " ++
  natStr c.estimated_iterations ++
  lit "\n- **Complexity**: " ++ c.complexity ++
  lit "\n- **Risk Level**: " ++ c.risk_level ++
  lit "\n- **Estimated Cost**: $" ++ format2f c.estimated_cost ++
  lit "\n\n## Constraints\n" ++ c.constraints ++ lit "\n"

/-- `PlanGenerator.TEMPLATES["general"]` with the context substituted. -/
def generalTemplate (c : PlanContext) : PyStr :=
  lit "# Implementation Plan: " ++ c.project_name ++
  lit "\n\n## Overview\nBuild a tool that solves: " ++ c.description ++
  lit "\n\n## Architecture\n- **Type**: Python CLI application\n- **Pattern**: Modular design with clear separation\n\n## Files to Create\n1. `src/main.py` - Entry point\n2. `src/core.py` - Core logic\n3. `src/utils.py` - Helper functions\n4. `tests/test_core.py` - Unit tests\n5. `README.md` - Documentation\n\n## Implementation Order (Iterations)\n1. **Scaffold** - Project structure\n2. **Core Logic** - Main functionality\n3. **Utilities** - Helper functions\n4. **Error Handling** - Robustness\n5. **Testing** - Validation\n6. **Documentation** - README\n\n## Estimated Metrics\n- **Iterations**: " ++
  natStr c.estimated_iterations ++
  lit "\n- **Complexity**: " ++ c.complexity ++
  lit "\n- **Risk Level**: " ++ c.risk_level ++
  lit "\n- **Estimated Cost**: $" ++ format2f c.estimated_cost ++ lit "\n"

/-- `PlanGenerator.create_plan` (planner.py lines 152-189): build the
context from the requirements dictionary (with the `dict.get` defaults
of the source) and fill the domain's template. -/
def create_plan (requirements : Requirements) (project_name : PyStr) : PyStr :=
  let reqs := requirements.requirements
  let complexity := requirements.complexity.getD (lit "medium")
  let c : PlanContext :=
    { project_name := project_name
      data_fields := joinWith (lit ", ") (reqs.data_fields.getD [lit "TBD"])
      sources := joinWith (lit ", ") (reqs.sources.getD [lit "TBD"])
      output_format := reqs.output_format.getD (lit "JSON")
      frequency := reqs.frequency.getD (lit "on-demand")
      constraints := joinWith (lit "\n")
        ((reqs.constraints.getD [lit "None"]).map (fun x => lit "- " ++ x))
      description := requirements.inferred_intent.getD (lit "Build a tool")
      trigger := reqs.trigger.getD (lit "manual")
      actions := reqs.actions.getD (lit "process data")
      estimated_iterations := estimate_iterations complexity
      complexity := complexity
      risk_level := assess_risk requirements
      estimated_cost := estimate_cost (estimate_iterations complexity) }
  if requirements.domain = lit "web_scraping" then webScrapingTemplate c
  else if requirements.domain = lit "automation" then automationTemplate c
  else generalTemplate c

lemma mid_infix (a b rest : PyStr) : b <:+: a ++ (b ++ rest) := by
  refine ⟨a, rest, ?_⟩
  rw [List.append_assoc]

lemma create_plan_contains_name (requirements : Requirements) (project_name : PyStr) :
    project_name <:+: create_plan requirements project_name := by
  unfold create_plan
  dsimp only
  split
  · unfold webScrapingTemplate
    dsimp only
    simp only [List.append_assoc]
    exact mid_infix _ _ _
  split
  · unfold automationTemplate
    dsimp only
    simp only [List.append_assoc]
    exact mid_infix _ _ _
  · unfold generalTemplate
    dsimp only
    simp only [List.append_assoc]
    exact mid_infix _ _ _

/-- Python exception classes raised and caught by the orchestrator. -/
inductive PyErr
  | budgetExceeded (msg : PyStr)
  | runtimeError (msg : PyStr)
  | timeoutError (msg : PyStr)
  | valueError (msg : PyStr)
deriving DecidableEq, Repr

/-- Python `str(e)`. -/
def PyErr.msg : PyErr → PyStr
  | .budgetExceeded m => m
  | .runtimeError m => m
  | .timeoutError m => m
  | .valueError m => m

/-- True exactly for `TimeoutError` (the class the Telegram wrappers
catch). -/
def PyErr.isTimeout : PyErr → Bool
  | .timeoutError _ => true
  | _ => false

/-- Interface of `IterationBuilder` (src/core/builder.py).  Modelled
from the spec: the builder module is absent from the repository
snapshot; the spec describes it as a stateless generator of placeholder
iteration outcomes (`create_scaffold`, `build_iteration`) and of the
final artifact reference (`create_final`), so it is embedded as an
arbitrary pure function of its call arguments. -/
structure Builder where
  create_scaffold : PyStr → IterationResult
  build_iteration : Nat → PyStr → PyStr → IterationResult
  final_path : PyStr → PyStr
  final_files : PyStr → List PyStr

/-- Configuration values read by the orchestrator, with the source's
defaults. -/
structure OrchConfig where
  max_questions : Nat := 5
  max_revisions : Nat := 3
  max_iterations : Nat := 10
  build_dir : PyStr := []
deriving DecidableEq, Repr

/-- Combined mutable state threaded through a run: the persisted
`BuildState`, the budget guardian, the queue of pending human replies
(`none` marks a reply wait that times out), the log of outbound
Telegram messages, and a wall-clock counter feeding `datetime.now()`. -/
structure OrchSt where
  state : BuildState
  guardian : TokenGuardian
  replies : List (Option PyStr)
  sent : List PyStr
  clock : Nat
deriving DecidableEq, Repr

/-- Abstract wall clock: the value of the n-th `datetime.now()` call of
the run (distinct calls give distinct microsecond fields, as the real
clock does). -/
def nowOf (n : Nat) : PyDateTime := ⟨2026, 1, 1, 0, 0, 0, n⟩

/-- Draw the current time and advance the clock. -/
def tick (st : OrchSt) : OrchSt × PyDateTime :=
  ({ st with clock := st.clock + 1 }, nowOf st.clock)

/-- `RalphLiteOrchestrator._save_state`: stamp `updated_at` and persist
(the file write itself has no observable effect inside a run). -/
def save_state (st : OrchSt) : OrchSt :=
  let (st, now) := tick st
  { st with state := { st.state with updated_at := now } }

/-- `telegram.send_message` (telegram.py lines 89-125): truncate to the
4000-character limit and deliver (credentials are assumed configured;
transport retries are invisible at this level). -/
def send_message (text : PyStr) (st : OrchSt) : OrchSt :=
  let t := if 4000 < text.length then text.take 3997 ++ lit "..." else text
  { st with sent := st.sent ++ [t] }

/-- Emoji picked by `telegram.send_alert` for an alert type. -/
def alertEmoji (alert_type : PyStr) : PyStr :=
  if alert_type = lit "info" then lit "ℹ️"
  else if alert_type = lit "warning" then lit "⚠️"
  else if alert_type = lit "error" then lit "🚨"
  else if alert_type = lit "success" then lit "✅"
  else lit "ℹ️"

/-- `telegram.send_alert` (telegram.py lines 128-152). -/
def send_alert (title body alert_type : PyStr) (st : OrchSt) : OrchSt :=
  send_message
    (alertEmoji alert_type ++ lit " <b>" ++ title ++ lit "</b>\n" ++
      List.replicate 30 '═' ++ lit "\n\n" ++ body) st

/-- `RalphLiteOrchestrator._pause_build` (ralph_lite.py lines 272-282):
move to PAUSED, record the reason, persist, alert the human. -/
def pause_build (reason details : PyStr) (st : OrchSt) : OrchSt :=
  let (st, now) := tick st
  let st := { st with state := { st.state with
    phase := BuildPhase.PAUSED, paused_at := some now, pause_reason := some reason } }
  let st := save_state st
  send_alert (lit "Build Paused") (reason ++ lit "\n\n" ++ details) (lit "warning") st

/-- `RalphLiteOrchestrator._check_budget` (ralph_lite.py lines
264-270).  The pause detail renders the daily limit with two decimals
(Python interpolates `str(float)`; the textual difference for whole
amounts is not observable by any claim). -/
def check_budget_orch (estimated_cost : ℚ) (st : OrchSt) : OrchSt × Bool :=
  if st.guardian.check_budget estimated_cost then (st, true)
  else
    (pause_build (lit "Budget limit reached")
      (lit "Daily limit $" ++ format2f st.guardian.daily_limit ++ lit " reached") st, false)

/-- `telegram.request_user_input` (telegram.py lines 216-312): capture
the baseline, send the prompt, poll until the first qualifying reply.
The environment queue holds, per wait, either the reply that the polling
loop eventually accepts or `none` when the window elapses
(`TimeoutError`); the timeout is not retried. -/
def request_user_input (prompt : PyStr) (st : OrchSt) : OrchSt × Except PyErr PyStr :=
  let st := send_message prompt st
  match st.replies with
  | [] => (st, .error (.timeoutError (lit "No response within 30 minutes")))
  | none :: rest =>
    ({ st with replies := rest }, .error (.timeoutError (lit "No response within 30 minutes")))
  | some r :: rest => ({ st with replies := rest }, .ok r)

/-- `telegram.send_interview_question` (telegram.py lines 464-482). -/
def send_interview_question (q_num total : Nat) (question : PyStr) (st : OrchSt) :
    OrchSt × Except PyErr PyStr :=
  request_user_input
    (lit "📋 <b>Question " ++ natStr q_num ++ lit "/" ++ natStr total ++
      lit "</b>\n\n" ++ question ++ lit "\n\n<i>Reply with your answer...</i>") st

/-- `telegram.send_plan_for_approval` (telegram.py lines 421-461):
present the (possibly truncated) plan; a timeout is swallowed and
defaulted to `"REJECT"`; a REVISE reply with feedback is re-serialized
as `"REVISE: feedback"`. -/
def send_plan_for_approval (plan_markdown : PyStr) (estimated_cost : ℚ) (st : OrchSt) :
    OrchSt × Except PyErr PyStr :=
  let plan_display :=
    if 3000 < plan_markdown.length then plan_markdown.take 3000 ++ lit "\n\n... (truncated)"
    else plan_markdown
  let message :=
    lit "📋 <b>PHASE 2 COMPLETE: Implementation Plan</b>\n\n" ++ plan_display ++
    lit "\n\n<b>Estimated Cost:</b> $" ++ format2f estimated_cost ++
    lit "\n\n🎮 <b>YOUR DECISION:</b>\n[APPROVE] → Start building\n[REVISE: feedback] → Fix plan\n[REJECT] → Cancel build"
  match request_user_input message st with
  | (st, .error e) =>
    if e.isTimeout then (st, .ok (lit "REJECT")) else (st, .error e)
  | (st, .ok response) =>
    let parsed := parse_command response
    if parsed.action = lit "REVISE" ∧ parsed.parameter ≠ [] then
      (st, .ok (lit "REVISE: " ++ parsed.parameter))
    else (st, .ok parsed.action)

/-- `telegram.send_iteration_result` (telegram.py lines 373-418):
present the iteration outcome; a timeout is swallowed and defaulted to
`"STOP"`; FIX and ROLLBACK replies with a parameter are re-serialized
with it. -/
def send_iteration_result (iteration max_iter : Nat) (files_changed : List PyStr)
    (test_results : PyStr) (cost : ℚ) (st : OrchSt) : OrchSt × Except PyErr PyStr :=
  let files_str0 := joinWith (lit "\n") ((files_changed.take 10).map (fun f => lit "• " ++ f))
  let files_str :=
    if 10 < files_changed.length then
      files_str0 ++ lit "\n• ... and " ++ natStr (files_changed.length - 10) ++ lit " more"
    else files_str0
  let message :=
    lit "🔨 <b>ITERATION " ++ natStr iteration ++ lit "/" ++ natStr max_iter ++
    lit " COMPLETE</b>\n\n<b>Files:</b>\n" ++ files_str ++
    lit "\n\n<b>Tests:</b> " ++ test_results ++
    lit "\n<b>Cost this iteration:</b> $" ++ format2f cost ++
    lit "\n\n🎮 <b>YOUR COMMAND:</b>\n[CONTINUE] [FIX: issue] [STOP] [ROLLBACK: N]"
  match request_user_input message st with
  | (st, .error e) =>
    if e.isTimeout then (st, .ok (lit "STOP")) else (st, .error e)
  | (st, .ok response) =>
    let parsed := parse_command response
    if parsed.action = lit "FIX" ∧ parsed.parameter ≠ [] then
      (st, .ok (lit "FIX: " ++ parsed.parameter))
    else if parsed.action = lit "ROLLBACK" ∧ parsed.parameter ≠ [] then
      (st, .ok (lit "ROLLBACK: " ++ parsed.parameter))
    else (st, .ok parsed.action)

/-- `telegram.send_build_complete` (telegram.py lines 485-516). -/
def send_build_complete (project_path : PyStr) (total_cost : ℚ) (iterations : Nat)
    (file_list : List PyStr) (st : OrchSt) : OrchSt :=
  let files_str0 := joinWith (lit "\n") ((file_list.take 15).map (fun f => lit "• " ++ f))
  let files_str :=
    if 15 < file_list.length then
      files_str0 ++ lit "\n• ... and " ++ natStr (file_list.length - 15) ++ lit " more files"
    else files_str0
  send_message
    (lit "✅ <b>BUILD COMPLETE</b>\n\n<b>Location:</b> <code>" ++ project_path ++
     lit "</code>\n<b>Total Cost:</b> $" ++ format2f total_cost ++
     lit "\n<b>Iterations:</b> " ++ natStr iterations ++
     lit "\n\n<b>Files:</b>\n" ++ files_str ++
     lit "\n\n📋 <b>NEXT STEPS:</b>\n1. Review code in FINAL/ directory\n2. Run tests: <code>cd FINAL && python -m pytest tests/</code>\n3. Deploy when ready (manual)\n\n[RALPH_DONE]") st

/-- `RalphLiteOrchestrator._ask_question` (ralph_lite.py lines 284-300):
ask via Telegram, append the Q/A pair, persist; any exception pauses the
build with reason "Interview timeout" and is re-raised. -/
def ask_question (question : PyStr) (cfg : OrchConfig) (st : OrchSt) :
    OrchSt × Except PyErr PyStr :=
  let q_num := st.state.qa_pairs.length + 1
  let total := cfg.max_questions
  match send_interview_question q_num total question st with
  | (st, .ok answer) =>
    let (st, now) := tick st
    let st := { st with state := { st.state with
      qa_pairs := st.state.qa_pairs ++ [⟨question, answer, isoformat now⟩] } }
    (save_state st, .ok answer)
  | (st, .error e) => (pause_build (lit "Interview timeout") e.msg st, .error e)

/-- `RalphLiteOrchestrator._request_approval` (ralph_lite.py lines
302-320).  The `parsed.get('parameter', 'needs revision')` default is
dead code because `parse_command` always populates the key; the model
reads the parameter directly. -/
def request_approval (content : PyStr) (estimated_cost : ℚ) (st : OrchSt) :
    OrchSt × Except PyErr (Bool × PyStr) :=
  match send_plan_for_approval content estimated_cost st with
  | (st, .error e) => (pause_build (lit "Approval timeout") e.msg st, .error e)
  | (st, .ok command) =>
    let parsed := parse_command command
    if parsed.action = lit "APPROVE" then (st, .ok (true, []))
    else if parsed.action = lit "REJECT" then (st, .ok (false, lit "rejected"))
    else if parsed.action = lit "REVISE" then (st, .ok (false, parsed.parameter))
    else (st, .ok (false, lit "unclear command: " ++ command))

/-- `RalphLiteOrchestrator._checkpoint_iteration` (ralph_lite.py lines
322-336). -/
def checkpoint_iteration (iteration : IterationResult) (cfg : OrchConfig) (st : OrchSt) :
    OrchSt × Except PyErr PyStr :=
  match send_iteration_result iteration.iteration_num cfg.max_iterations
      (iteration.files_created ++ iteration.files_modified)
      (if iteration.tests_passed then lit "Tests: passing" else lit "Tests: failing")
      iteration.cost st with
  | (st, .ok command) => (st, .ok command)
  | (st, .error e) => (pause_build (lit "Checkpoint timeout") e.msg st, .error e)

/-- Question loop of `_run_interview_phase` (ralph_lite.py lines
359-373). -/
def interviewLoop (cfg : OrchConfig) : List PyStr → OrchSt → OrchSt × Except PyErr Unit
  | [], st => (st, .ok ())
  | q :: qs, st =>
    match check_budget_orch (mkRat 1 10) st with
    | (st, false) => (st, .error (.budgetExceeded (lit "Budget exhausted during interview")))
    | (st, true) =>
      match ask_question q cfg st with
      | (st, .error e) => (st, .error e)
      | (st, .ok _) =>
        let (st, now) := tick st
        let g := st.guardian.log_cost (lit "interview_question") (lit "interview")
          st.state.qa_pairs.length (mkRat 5 100) (some st.state.project_name) (isoformat now)
        let st := { st with guardian := g }
        let st := { st with state := { st.state with
          total_cost := st.state.total_cost + mkRat 5 100 } }
        let st := save_state st
        interviewLoop cfg qs st

/-- `RalphLiteOrchestrator._run_interview_phase` (ralph_lite.py lines
342-380). -/
def run_interview_phase (cfg : OrchConfig) (st : OrchSt) :
    OrchSt × Except PyErr Requirements :=
  let st := { st with state := { st.state with phase := BuildPhase.INTERVIEW } }
  let st := save_state st
  let st := send_message (lit "Starting build: <b>" ++ st.state.project_name ++
    lit "</b>\n\nPhase 1: Interview") st
  let questions := generate_questions st.state.source_idea
  match interviewLoop cfg questions st with
  | (st, .error e) => (st, .error e)
  | (st, .ok _) =>
    let requirements := summarize_requirements st.state.qa_pairs
    (st, .ok { requirements with project_name := some st.state.project_name })

/-- Revision loop of `_run_planning_phase` (ralph_lite.py lines
397-433): `remaining` counts the attempts left of the
`range(max_revisions)` loop; exhausting it raises
`RuntimeError(f"Max revisions ({max_revisions}) exceeded")`. -/
def planningLoop (requirements : Requirements) (maxRev : Nat) (cfg : OrchConfig) :
    Nat → OrchSt → OrchSt × Except PyErr PyStr
  | 0, st => (st, .error (.runtimeError
      (lit "Max revisions (" ++ natStr maxRev ++ lit ") exceeded")))
  | r + 1, st =>
    match check_budget_orch (mkRat 3 10) st with
    | (st, false) => (st, .error (.budgetExceeded (lit "Budget exhausted during planning")))
    | (st, true) =>
      let plan := create_plan requirements st.state.project_name
      let estimated_cost := (7 : ℚ) * mkRat 1 2
      match request_approval plan estimated_cost st with
      | (st, .error e) => (st, .error e)
      | (st, .ok (approved, feedback)) =>
        if approved then
          let st := { st with state := { st.state with approved_plan := plan } }
          let st := save_state st
          let (st, now) := tick st
          let g := st.guardian.log_cost (lit "plan_approved") (lit "planning") 0
            (mkRat 3 10) (some st.state.project_name) (isoformat now)
          let st := { st with guardian := g }
          let st := { st with state := { st.state with
            total_cost := st.state.total_cost + mkRat 3 10 } }
          (st, .ok plan)
        else
          let st := { st with state := { st.state with
            plan_revisions := st.state.plan_revisions + 1 } }
          if feedback = lit "rejected" then
            (st, .error (.runtimeError (lit "Plan rejected by user")))
          else
            let st := send_message (lit "Revising plan (attempt " ++
              natStr (st.state.plan_revisions + 1) ++ lit ")...") st
            planningLoop requirements maxRev cfg r st

/-- `RalphLiteOrchestrator._run_planning_phase` (ralph_lite.py lines
382-433). -/
def run_planning_phase (requirements : Requirements) (cfg : OrchConfig) (st : OrchSt) :
    OrchSt × Except PyErr PyStr :=
  let st := { st with state := { st.state with phase := BuildPhase.PLANNING } }
  let st := save_state st
  planningLoop requirements cfg.max_revisions cfg cfg.max_revisions st

/-- The hard-coded iteration task list of `_run_build_phase`
(ralph_lite.py lines 453-461), truncated to `max_iterations`. -/
def buildTasks (max_iterations : Nat) : List PyStr :=
  ([lit "Create scaffold and project structure",
    lit "Implement core functionality",
    lit "Add error handling and validation",
    lit "Implement data processing",
    lit "Add output/formatting",
    lit "Create tests",
    lit "Final polish and documentation"]).take max_iterations

/-- Iteration-0 scaffold step of `_run_build_phase` (ralph_lite.py
lines 463-475). -/
def build_scaffold_step (B : Builder) (plan : PyStr) (st : OrchSt) :
    OrchSt × Except PyErr Unit :=
  if st.state.current_iteration = 0 then
    match check_budget_orch (mkRat 1 10) st with
    | (st, false) => (st, .error (.budgetExceeded (lit "Budget exhausted")))
    | (st, true) =>
      let result := B.create_scaffold plan
      let st := { st with state := { st.state with
        iterations := st.state.iterations ++ [result],
        last_iteration_path := result.path, current_iteration := 0 } }
      let st := save_state st
      let (st, now) := tick st
      let g := st.guardian.log_cost (lit "scaffold") (lit "build") 0 (mkRat 1 10)
        (some st.state.project_name) (isoformat now)
      let st := { st with guardian := g }
      let st := { st with state := { st.state with
        total_cost := st.state.total_cost + mkRat 1 10 } }
      (st, .ok ())
  else (st, .ok ())

/-- Unreachable list-index default (the source guards the access with
`target < len(self.state.iterations)`). -/
def dummyIteration : IterationResult := ⟨false, 0, [], [], false, 0, [], []⟩

/-- Main loop of `_run_build_phase` over `range(1, len(iterations)+1)`
(ralph_lite.py lines 477-534).  A `continue` in the Python `for` loop
advances to the next index, so every non-STOP command — the ROLLBACK
branch included — proceeds with the remaining indices. -/
def buildLoop (B : Builder) (tasks : List PyStr) (cfg : OrchConfig) :
    List Nat → OrchSt → OrchSt × Except PyErr Bool
  | [], st => (st, .ok true)
  | i :: rest, st =>
    if i ≤ st.state.current_iteration then buildLoop B tasks cfg rest st
    else
      match check_budget_orch (mkRat 1 2) st with
      | (st, false) => (st, .error (.budgetExceeded (lit "Budget exhausted during build")))
      | (st, true) =>
        let task := tasks.getD (i - 1) []
        let result := B.build_iteration i task st.state.last_iteration_path
        let st := { st with state := { st.state with
          iterations := st.state.iterations ++ [result],
          last_iteration_path := result.path, current_iteration := i } }
        let st := save_state st
        let (st, now) := tick st
        let g := st.guardian.log_cost (lit "build_iter_" ++ natStr i) (lit "build") i
          result.cost (some st.state.project_name) (isoformat now)
        let st := { st with guardian := g }
        let st := { st with state := { st.state with
          total_cost := st.state.total_cost + result.cost } }
        match checkpoint_iteration result cfg st with
        | (st, .error e) => (st, .error e)
        | (st, .ok command) =>
          let parsed := parse_command command
          if parsed.action = lit "STOP" then (st, .ok false)
          else if parsed.action = lit "FIX" then
            let fix_desc := parsed.parameter
            let st := send_message (lit "Applying fix: " ++ fix_desc ++ lit "...") st
            buildLoop B tasks cfg rest st
          else if pyStartswith parsed.action (lit "ROLLBACK") then
            match pyInt parsed.parameter with
            | none => (st, .error (.valueError
                (lit "invalid literal for int() with base 10: " ++ parsed.parameter)))
            | some target =>
              let st :=
                if target < (st.state.iterations.length : Int) then
                  let st := { st with state := { st.state with
                    current_iteration := target.toNat,
                    last_iteration_path :=
                      (st.state.iterations.getD target.toNat dummyIteration).path } }
                  let st := save_state st
                  send_message (lit "Rolled back to iteration " ++ natStr target.toNat) st
                else st
              buildLoop B tasks cfg rest st
          else buildLoop B tasks cfg rest st

/-- `RalphLiteOrchestrator._run_build_phase` (ralph_lite.py lines
435-534). -/
def run_build_phase (B : Builder) (plan : PyStr) (cfg : OrchConfig) (st : OrchSt) :
    OrchSt × Except PyErr Bool :=
  let st := { st with state := { st.state with phase := BuildPhase.BUILD } }
  let st := save_state st
  let tasks := buildTasks cfg.max_iterations
  match build_scaffold_step B plan st with
  | (st, .error e) => (st, .error e)
  | (st, .ok _) => buildLoop B tasks cfg (List.range' 1 tasks.length) st

/-- `RalphLiteOrchestrator._run_done_phase` (ralph_lite.py lines
536-565). -/
def run_done_phase (B : Builder) (st : OrchSt) : OrchSt × Except PyErr Bool :=
  let st := { st with state := { st.state with phase := BuildPhase.DONE } }
  let st := save_state st
  let fpath := B.final_path st.state.last_iteration_path
  let ffiles := B.final_files st.state.last_iteration_path
  let st := send_build_complete fpath st.state.total_cost st.state.current_iteration ffiles st
  let st := save_state st
  (st, .ok true)

/-- Result dictionary returned by `RalphLiteOrchestrator.run`; `none`
marks a key the returned dict does not carry on that branch. -/
structure RunResult where
  success : Bool
  reason : Option PyStr := none
  error : Option PyStr := none
  project_path : PyStr := []
  final_path : Option PyStr := none
  total_cost : Option ℚ := none
  iterations : Option Nat := none
  phase : Option PyStr := none
deriving DecidableEq, Repr

/-- Success dictionary of `run` (ralph_lite.py lines 592-599). -/
def successResult (cfg : OrchConfig) (st : OrchSt) : RunResult :=
  { success := true, project_path := cfg.build_dir,
    final_path := some (cfg.build_dir ++ lit "/FINAL"),
    total_cost := some st.state.total_cost,
    iterations := some st.state.current_iteration,
    phase := some st.state.phase.name }

/-- The two `except` clauses of `run` (ralph_lite.py lines 601-620):
`BudgetExceeded` pauses and reports `budget_exceeded`; every other
exception moves to FAILED and reports `error`. -/
def run_catch (e : PyErr) (cfg : OrchConfig) (st : OrchSt) : OrchSt × RunResult :=
  match e with
  | .budgetExceeded m =>
    let st := pause_build (lit "Budget limit") m st
    (st, { success := false, reason := some (lit "budget_exceeded"),
           project_path := cfg.build_dir, total_cost := some st.state.total_cost })
  | e =>
    let st := { st with state := { st.state with phase := BuildPhase.FAILED } }
    let st := save_state st
    (st, { success := false, reason := some (lit "error"), error := some e.msg,
           project_path := cfg.build_dir })

/-- Body of the `try` block of `RalphLiteOrchestrator.run`
(ralph_lite.py lines 578-599): the four phases in sequence, with the
first uncaught exception carried out. -/
def run_try (B : Builder) (cfg : OrchConfig) (st : OrchSt) :
    OrchSt × Except PyErr RunResult :=
  match run_interview_phase cfg st with
  | (st, .error e) => (st, .error e)
  | (st, .ok requirements) =>
    match run_planning_phase requirements cfg st with
    | (st, .error e) => (st, .error e)
    | (st, .ok plan) =>
      match run_build_phase B plan cfg st with
      | (st, .error e) => (st, .error e)
      | (st, .ok completed) =>
        if completed then
          match run_done_phase B st with
          | (st, .error e) => (st, .error e)
          | (st, .ok _) => (st, .ok (successResult cfg st))
        else (st, .ok (successResult cfg st))

/-- `RalphLiteOrchestrator.run` (ralph_lite.py lines 571-620): the try
block with the two handlers of `run_catch`. -/
def run (B : Builder) (cfg : OrchConfig) (st : OrchSt) : OrchSt × RunResult :=
  match run_try B cfg st with
  | (st, .ok res) => (st, res)
  | (st, .error e) => run_catch e cfg st

/-- Fresh state of a new build
(`RalphLiteOrchestrator._init_or_load_state`, ralph_lite.py lines
224-247), with the reply queue and guardian of the scenario. -/
def initState (project_name source_idea : PyStr) (g : TokenGuardian)
    (replies : List (Option PyStr)) : OrchSt :=
  { state :=
    { phase := BuildPhase.IDLE, project_name := project_name,
      source_idea := source_idea, started_at := nowOf 0, updated_at := nowOf 0,
      qa_pairs := [], approved_plan := [], plan_revisions := 0,
      current_iteration := 0, iterations := [], last_iteration_path := [],
      total_cost := 0 },
    guardian := g, replies := replies, sent := [], clock := 1 }

/-- Guardian with the default $5 daily limit and an empty ledger. -/
def g5 : TokenGuardian := ⟨5, lit "2026-10-12", []⟩

/-- Concrete builder used in the run scenarios: each iteration's
artifact path extends the previous one, so the path of a built
iteration records which artifact it started from. -/
def mkB : Builder :=
  { create_scaffold := fun _ =>
      ⟨true, 0, [lit "README.md"], [], true, mkRat 1 10, lit "iter-0", lit "scaffold"⟩,
    build_iteration := fun i _ p =>
      ⟨true, i, [lit "main.py"], [], true, mkRat 1 2, p ++ lit "+" ++ natStr i, lit "done"⟩,
    final_path := fun p => p ++ lit "/FINAL",
    final_files := fun _ => [lit "main.py"] }

/-- Fresh orchestrator state for the project `proj` / idea `idea` with
the default guardian and a given reply queue. -/
def rs (l : List (Option PyStr)) : OrchSt := initState (lit "proj") (lit "idea") g5 l

/-- Five interview answers (the idea `idea` classifies as `general`,
which has five questions). -/
def ans5 : List (Option PyStr) :=
  [some (lit "a1"), some (lit "a2"), some (lit "a3"), some (lit "a4"), some (lit "a5")]

/-- Requirements dictionary produced by an (empty) interview. -/
def reqs0 : Requirements := summarize_requirements []

/-- C1, counterexample: with `max_revisions = 3`, the reply sequence
REVISE, REVISE, REVISE, APPROVE does not return the rendered plan — the
`range(max_revisions)` loop grants only three approval attempts, so the
third REVISE exhausts it and `_run_planning_phase` raises
`RuntimeError("Max revisions (3) exceeded")` without ever reading the
APPROVE reply. -/
theorem planning_revise3_approve_counterexample :
    (run_planning_phase reqs0 {}
      (rs [some (lit "revise: a"), some (lit "revise: b"), some (lit "revise: c"),
           some (lit "approve")])).2
    = .error (.runtimeError (lit "Max revisions (3) exceeded")) := by
  with_unfolding_all rfl

/-- C1, amended: with `max_revisions = 3` the planning loop offers
three approval attempts, so TWO consecutive REVISE replies followed by
APPROVE return the rendered plan (which contains the project name, for
every requirements dictionary), while three consecutive REVISE replies
raise MaxRevisionsExceeded regardless of any further reply. -/
theorem planning_revisions_spec :
    (∀ (requirements : Requirements) (name : PyStr),
      name <:+: create_plan requirements name) ∧
    (run_planning_phase reqs0 {}
        (rs [some (lit "revise: a"), some (lit "revise: b"), some (lit "approve")])).2
      = .ok (create_plan reqs0 (lit "proj")) ∧
    (run_planning_phase reqs0 {}
        (rs [some (lit "revise: a"), some (lit "revise: b"), some (lit "revise: c"),
             some (lit "reject")])).2
      = .error (.runtimeError (lit "Max revisions (3) exceeded")) := by
  refine ⟨fun requirements name => create_plan_contains_name requirements name, ?_, ?_⟩
  · with_unfolding_all rfl
  · with_unfolding_all rfl

/-- C2: the ROLLBACK bug.  In a run whose checkpoint replies are
CONTINUE for iterations 1-3 and `ROLLBACK 2` after iteration 4 (then
nothing), the rollback does set `current_iteration := 2` and point the
artifact reference at iteration 2's outcome — but the `continue`
statement advances the Python `for` loop, so the next work is iteration
5 (built directly on iteration 2's artifact, as its path
`iter-0+1+2+5` shows) and iterations 3 and 4 are never re-attempted:
the recorded iteration numbers are 0,1,2,3,4,5 with no repeats.  The
loop does not resume from iteration 3, contradicting both the claim and
the source's own `# Redo from target iteration` comment. -/
theorem rollback_continue_bug :
    ((run mkB {} (rs (ans5 ++ [some (lit "approve"), some (lit "continue"),
        some (lit "continue"), some (lit "continue"), some (lit "rollback 2")]))).1.state.iterations.map
      IterationResult.iteration_num = [0, 1, 2, 3, 4, 5]) ∧
    ((run mkB {} (rs (ans5 ++ [some (lit "approve"), some (lit "continue"),
        some (lit "continue"), some (lit "continue"), some (lit "rollback 2")]))).1.state.iterations.getD
      5 dummyIteration).path = lit "iter-0+1+2+5" ∧
    (run mkB {} (rs (ans5 ++ [some (lit "approve"), some (lit "continue"),
        some (lit "continue"), some (lit "continue"), some (lit "rollback 2")]))).1.state.current_iteration
      = 5 := by
  refine ⟨?_, ?_, ?_⟩ <;> with_unfolding_all rfl

/-- C3, counterexample: a reply timeout at an iteration checkpoint does
NOT end the run in the PAUSED phase — `send_iteration_result` swallows
the `TimeoutError` and defaults the command to STOP, so the run ends
with phase BUILD, no recorded pause reason, and `success = True`. -/
theorem reply_timeout_counterexample :
    (run mkB {} (rs (ans5 ++ [some (lit "approve"), none]))).1.state.phase = BuildPhase.BUILD ∧
    (run mkB {} (rs (ans5 ++ [some (lit "approve"), none]))).1.state.pause_reason = none ∧
    (run mkB {} (rs (ans5 ++ [some (lit "approve"), none]))).2.success = true := by
  refine ⟨?_, ?_, ?_⟩ <;> with_unfolding_all rfl

/-- C3, amended: a reply timeout is never retried (exactly one queue
entry is consumed), but only the interview-question wait propagates it:
there `_ask_question` records PAUSED with reason "Interview timeout"
and re-raises, after which `run()` overwrites the phase with FAILED; a
plan-approval timeout is converted to REJECT (the run then fails with
"Plan rejected by user"); an iteration-checkpoint timeout is converted
to STOP (the run ends with phase BUILD and `success = True`).  In no
case does the run END in the PAUSED phase. -/
theorem reply_timeout_spec :
    (∀ (plan : PyStr) (cost : ℚ) (st : OrchSt) (rest : List (Option PyStr)),
      st.replies = none :: rest →
      ∃ m, send_plan_for_approval plan cost st
        = ({ st with sent := st.sent ++ [m], replies := rest }, .ok (lit "REJECT"))) ∧
    (∀ (it mx : Nat) (files : List PyStr) (tr : PyStr) (cost : ℚ) (st : OrchSt)
        (rest : List (Option PyStr)),
      st.replies = none :: rest →
      ∃ m, send_iteration_result it mx files tr cost st
        = ({ st with sent := st.sent ++ [m], replies := rest }, .ok (lit "STOP"))) ∧
    (∀ (q : PyStr) (cfg : OrchConfig) (st : OrchSt) (rest : List (Option PyStr)),
      st.replies = none :: rest →
      ∃ st', ask_question q cfg st
          = (st', .error (.timeoutError (lit "No response within 30 minutes")))
        ∧ st'.state.phase = BuildPhase.PAUSED
        ∧ st'.state.pause_reason = some (lit "Interview timeout")
        ∧ st'.replies = rest) ∧
    ((run mkB {} (rs [none])).1.state.phase = BuildPhase.FAILED ∧
     (run mkB {} (rs [none])).1.state.pause_reason = some (lit "Interview timeout") ∧
     (run mkB {} (rs [none])).2.error = some (lit "No response within 30 minutes")) ∧
    ((run mkB {} (rs (ans5 ++ [none]))).1.state.phase = BuildPhase.FAILED ∧
     (run mkB {} (rs (ans5 ++ [none]))).2.error = some (lit "Plan rejected by user")) ∧
    ((run mkB {} (rs (ans5 ++ [some (lit "approve"), none]))).1.state.phase = BuildPhase.BUILD ∧
     (run mkB {} (rs (ans5 ++ [some (lit "approve"), none]))).2.success = true) := by
  refine ⟨?_, ?_, ?_, ⟨?_, ?_, ?_⟩, ⟨?_, ?_⟩, ⟨?_, ?_⟩⟩
  · intro plan cost st rest h
    unfold send_plan_for_approval request_user_input send_message PyErr.isTimeout
    dsimp only
    rw [h]
    exact ⟨_, rfl⟩
  · intro it mx files tr cost st rest h
    unfold send_iteration_result request_user_input send_message PyErr.isTimeout
    dsimp only
    rw [h]
    exact ⟨_, rfl⟩
  · intro q cfg st rest h
    unfold ask_question send_interview_question request_user_input send_message
      pause_build save_state tick send_alert alertEmoji PyErr.msg
    dsimp only
    rw [h]
    exact ⟨_, rfl, rfl, rfl, rfl⟩
  all_goals with_unfolding_all rfl

/-- Closed instance of `reply_timeout_spec`: its plan-approval clause
applied to the concrete state whose only pending reply event is a
timeout. -/
theorem reply_timeout_spec_witness :
    (send_plan_for_approval (lit "plan") 0 (rs [none])).2 = .ok (lit "REJECT") := by
  obtain ⟨m, hm⟩ := reply_timeout_spec.1 (lit "plan") 0 (rs [none]) [] rfl
  rw [hm]

/-- C4: whenever the try block of `run()` raises `BudgetExceeded`, the
handler recovers locally: the state ends PAUSED with pause reason
"Budget limit", one more notification is sent, and `run` returns
`success = False` with reason `budget_exceeded` instead of propagating
the exception. -/
theorem budget_exceeded_recovery :
    ∀ (B : Builder) (cfg : OrchConfig) (st st' : OrchSt) (m : PyStr),
      run_try B cfg st = (st', .error (.budgetExceeded m)) →
      (run B cfg st).2.success = false ∧
      (run B cfg st).2.reason = some (lit "budget_exceeded") ∧
      (run B cfg st).1.state.phase = BuildPhase.PAUSED ∧
      (run B cfg st).1.state.pause_reason = some (lit "Budget limit") ∧
      ∃ a, (run B cfg st).1.sent = st'.sent ++ [a] := by
  intro B cfg st st' m h
  unfold run
  rw [h]
  unfold run_catch pause_build save_state tick send_alert alertEmoji send_message
  dsimp only
  exact ⟨rfl, rfl, rfl, rfl, ⟨_, rfl⟩⟩

/-- Closed instance of `budget_exceeded_recovery`: a run with a $0
daily limit raises `BudgetExceeded` at the first interview question and
returns reason `budget_exceeded` from a PAUSED state. -/
theorem budget_exceeded_recovery_witness :
    (run mkB {} (initState (lit "proj") (lit "idea") ⟨0, lit "2026-10-12", []⟩ ans5)).2.reason
      = some (lit "budget_exceeded") ∧
    (run mkB {} (initState (lit "proj") (lit "idea") ⟨0, lit "2026-10-12", []⟩ ans5)).1.state.phase
      = BuildPhase.PAUSED := by
  obtain ⟨st', hEq⟩ :
      ∃ st', run_try mkB {} (initState (lit "proj") (lit "idea") ⟨0, lit "2026-10-12", []⟩ ans5)
        = (st', .error (.budgetExceeded (lit "Budget exhausted during interview"))) :=
    ⟨_, by with_unfolding_all rfl⟩
  have h := budget_exceeded_recovery mkB {}
    (initState (lit "proj") (lit "idea") ⟨0, lit "2026-10-12", []⟩ ans5) st' _ hEq
  exact ⟨h.2.1, h.2.2.1⟩

/-- C8: in the build phase of a 7-iteration plan, CONTINUE at
iterations 1 and 2 followed by STOP at iteration 3 makes
`_run_build_phase` return False (incomplete) with
`current_iteration = 3` and the phase still BUILD; in the full run the
DONE phase is skipped, so the final phase remains BUILD (never DONE)
even though `run()` still reports `success = True`. -/
theorem build_stop_spec :
    (run_build_phase mkB (lit "plan") {}
        (rs [some (lit "continue"), some (lit "continue"), some (lit "stop")])).2
      = .ok false ∧
    (run_build_phase mkB (lit "plan") {}
        (rs [some (lit "continue"), some (lit "continue"), some (lit "stop")])).1.state.current_iteration
      = 3 ∧
    (run_build_phase mkB (lit "plan") {}
        (rs [some (lit "continue"), some (lit "continue"), some (lit "stop")])).1.state.phase
      = BuildPhase.BUILD ∧
    (run mkB {} (rs (ans5 ++ [some (lit "approve"), some (lit "continue"),
        some (lit "continue"), some (lit "stop")]))).1.state.phase = BuildPhase.BUILD ∧
    (run mkB {} (rs (ans5 ++ [some (lit "approve"), some (lit "continue"),
        some (lit "continue"), some (lit "stop")]))).1.state.current_iteration = 3 := by
  refine ⟨?_, ?_, ?_, ?_, ?_⟩ <;> with_unfolding_all rfl

/-- C10: a bare `rollback` (or `ROLLBACK`) reply parses to action
ROLLBACK with an empty-string parameter; `int('')` raises `ValueError`
in the build loop's target conversion (the `.get` default is dead
because the key is always present), and `run()`'s generic handler ends
the run FAILED with `success = False` and reason `error` instead of
defaulting the rollback target. -/
theorem rollback_no_param_spec :
    parse_command (lit "rollback") = ⟨lit "ROLLBACK", [], lit "rollback"⟩ ∧
    parse_command (lit "ROLLBACK") = ⟨lit "ROLLBACK", [], lit "ROLLBACK"⟩ ∧
    pyInt [] = none ∧
    (run mkB {} (rs (ans5 ++ [some (lit "approve"), some (lit "rollback")]))).2.success = false ∧
    (run mkB {} (rs (ans5 ++ [some (lit "approve"), some (lit "rollback")]))).2.reason
      = some (lit "error") ∧
    (run mkB {} (rs (ans5 ++ [some (lit "approve"), some (lit "rollback")]))).2.error
      = some (lit "invalid literal for int() with base 10: ") ∧
    (run mkB {} (rs (ans5 ++ [some (lit "approve"), some (lit "rollback")]))).1.state.phase
      = BuildPhase.FAILED := by
  refine ⟨by decide, by decide, by decide, ?_, ?_, ?_, ?_⟩ <;> with_unfolding_all rfl
